import Mathlib

/-!
Verification development for the matrix-media-repo core: the datastore
registry (storage/ds_utils.go), the federation resolver and fetcher
(matrix package), and the thumbnail generator
(services/thumbnail_service/thumbnailer.go).

The Go code is shallowly embedded: external effects (database, network,
image codecs, disk) are parameters (oracle records of pure functions), and
each Go function becomes a Lean function over those oracles, mirroring the
control flow of the source line by line.
-/

/-! ## Datastore registry (storage/ds_utils.go) -/

/-- A datastore record, mirroring types.Datastore: `{DatastoreId, Type, Uri}`. -/
structure Datastore where
  datastoreId : String
  dsType : String
  uri : String
deriving DecidableEq, Repr

/-- Database error values observable by ds_utils.go. `noRows` stands for
sql.ErrNoRows; `uniqueViolation` for a uniqueness-constraint violation on
the `uri` column; `other` for any remaining database error. -/
inductive DbErr
  | noRows
  | uniqueViolation
  | other (msg : String)
deriving DecidableEq, Repr

/-- Errors returned by GetOrCreateDatastoreOfType: either the random id
generator failed or a database operation failed. -/
inductive StorageErr
  | genErr (msg : String)
  | dbErr (e : DbErr)
deriving DecidableEq, Repr

/-- The media store interface used by ds_utils.go. `getByUri` returns the
Go pair (datastore pointer, error): a missing row is `(none, some .noRows)`,
a hit is `(some d, none)`, and a failing query yields a `none` pointer
together with its error. `insert` returns the error of InsertDatastore
(`none` on success). -/
structure MediaStore where
  getByUri : String → Option Datastore × Option DbErr
  insert : Datastore → Option DbErr

/-- storage/ds_utils.go, GetOrCreateDatastoreOfType (lines 13-34).
`gen` is the outcome of util.GenerateRandomString(32). The Go condition
`err != nil && err == sql.ErrNoRows` is `err = some .noRows`; note that the
final `return datastore, nil` is reached both on a lookup hit and on a
lookup error other than sql.ErrNoRows. -/
def getOrCreateDatastoreOfType (store : MediaStore) (gen : Except String String)
    (dsType dsUri : String) : Except StorageErr (Option Datastore) :=
  let r := store.getByUri dsUri
  let datastore := r.1
  let err := r.2
  if err = some DbErr.noRows then
    match gen with
    | .error e2 => .error (.genErr e2)
    | .ok id =>
      let ds : Datastore := ⟨id, dsType, dsUri⟩
      match store.insert ds with
      | some e2 => .error (.dbErr e2)
      | none => .ok (some ds)
  else
    .ok datastore

/-- Modelled from the spec: the database table behind
`GetDatastoreByUri(uri)` (storage/stores, not under src/). The table is a
list of records; a lookup returns the first record with the given uri, or
the not-found error. -/
def dbGetByUri (db : List Datastore) (uri : String) : Option Datastore × Option DbErr :=
  match db.find? (fun d => d.uri == uri) with
  | some d => (some d, none)
  | none => (none, some DbErr.noRows)

/-- Modelled from the spec: `InsertDatastore` (storage/stores, not under
src/), with the uniqueness constraint on `uri` enforced by the storage
layer (spec 4.C / 5): inserting a duplicate uri fails with a uniqueness
violation, otherwise the record is appended. -/
def dbInsert (db : List Datastore) (d : Datastore) : List Datastore × Option DbErr :=
  if db.any (fun x => x.uri == d.uri) then (db, some DbErr.uniqueViolation)
  else (db ++ [d], none)

/-- GetOrCreateDatastoreOfType with the database state threaded through
explicitly: the same control flow as ds_utils.go lines 13-34, instantiated
with the spec-modelled table operations `dbGetByUri` / `dbInsert`, so that
sequential calls can be reasoned about. -/
def getOrCreateSt (gen : Except String String) (dsType dsUri : String)
    (db : List Datastore) : Except StorageErr (Option Datastore) × List Datastore :=
  let r := dbGetByUri db dsUri
  let datastore := r.1
  let err := r.2
  if err = some DbErr.noRows then
    match gen with
    | .error e2 => (.error (.genErr e2), db)
    | .ok id =>
      let ds : Datastore := ⟨id, dsType, dsUri⟩
      let ins := dbInsert db ds
      match ins.2 with
      | some e2 => (.error (.dbErr e2), ins.1)
      | none => (.ok (some ds), ins.1)
  else
    (.ok datastore, db)

/-- Concrete store for the C3 statements: the lookup always misses and the
insert always reports a uniqueness violation (a concurrent caller won the
insert race). -/
def c3Store : MediaStore :=
  ⟨fun _ => (none, some DbErr.noRows), fun _ => some DbErr.uniqueViolation⟩

/-- C3 counterexample: with a lookup miss followed by an insert that fails
with a uniqueness violation, GetOrCreateDatastoreOfType returns the insert
error to the caller; it does not re-read by uri and does not return a
record. -/
theorem c3_unique_violation_counterexample :
    getOrCreateDatastoreOfType c3Store (.ok "abcdefghijklmnopqrstuvwxyzABCDEF")
      "file" "/tmp/a" = .error (.dbErr DbErr.uniqueViolation) := by
  rfl

/-- C3 (amended): when the lookup misses with the not-found error, the id
generator succeeds, and the insert fails (in particular with a uniqueness
violation), GetOrCreateDatastoreOfType surfaces that insert error to the
caller rather than treating it as success and re-reading by uri. -/
theorem c3_insert_error_surfaced (store : MediaStore) (id dsType dsUri : String)
    (e : DbErr) (hmiss : (store.getByUri dsUri).2 = some DbErr.noRows)
    (hins : store.insert ⟨id, dsType, dsUri⟩ = some e) :
    getOrCreateDatastoreOfType store (.ok id) dsType dsUri = .error (.dbErr e) := by
  unfold getOrCreateDatastoreOfType
  simp [hmiss, hins]

/-- C3 witness: the amended theorem applied to the concrete racing store. -/
theorem c3_insert_error_surfaced_witness :
    getOrCreateDatastoreOfType c3Store (.ok "abcdefghijklmnopqrstuvwxyzABCDEF")
      "file" "/tmp/b" = .error (.dbErr DbErr.uniqueViolation) :=
  c3_insert_error_surfaced c3Store "abcdefghijklmnopqrstuvwxyzABCDEF" "file" "/tmp/b"
    DbErr.uniqueViolation rfl rfl

/-- C9: when the lookup fails with any database error other than
sql.ErrNoRows, GetOrCreateDatastoreOfType returns neither a record nor a
failure: the result is `.ok none` (a nil datastore and a nil error). -/
theorem c9_non_notfound_lookup_error_swallowed (store : MediaStore)
    (gen : Except String String) (dsType dsUri : String) (e : DbErr)
    (h1 : store.getByUri dsUri = (none, some e)) (h2 : e ≠ DbErr.noRows) :
    getOrCreateDatastoreOfType store gen dsType dsUri = .ok none := by
  unfold getOrCreateDatastoreOfType
  simp [h1, h2]

/-- Concrete store for the C9 witness: the lookup fails with a generic
database error. -/
def c9Store : MediaStore :=
  ⟨fun _ => (none, some (DbErr.other "connection reset")), fun _ => none⟩

/-- C9 witness: the theorem applied at a concrete failing lookup. -/
theorem c9_non_notfound_lookup_error_swallowed_witness :
    getOrCreateDatastoreOfType c9Store (.ok "x") "file" "/tmp/a" = .ok none :=
  c9_non_notfound_lookup_error_swallowed c9Store (.ok "x") "file" "/tmp/a"
    (DbErr.other "connection reset") rfl (by decide)

/-- If no record of the table carries uri `u`, the lookup misses. -/
theorem dbGetByUri_of_free (db : List Datastore) (u : String)
    (hfree : ∀ d ∈ db, d.uri ≠ u) : dbGetByUri db u = (none, some DbErr.noRows) := by
  unfold dbGetByUri
  have : db.find? (fun d => d.uri == u) = none := by
    rw [List.find?_eq_none]
    intro x hx
    simp [hfree x hx]
  simp [this]

/-- Appending a record with uri `u` to a table free of `u` makes the lookup
return that record. -/
theorem find_append_last (db : List Datastore) (d : Datastore) (u : String)
    (hfree : ∀ x ∈ db, x.uri ≠ u) (hd : d.uri = u) :
    (db ++ [d]).find? (fun x => x.uri == u) = some d := by
  induction db with
  | nil => simp [List.find?, hd]
  | cons a tl ih =>
    have ha : a.uri ≠ u := hfree a (by simp)
    have htl : ∀ x ∈ tl, x.uri ≠ u := fun x hx => hfree x (by simp [hx])
    simp only [List.cons_append, List.find?]
    have hb : (a.uri == u) = false := by simp [ha]
    rw [hb]
    exact ih htl

/-- C7: GetOrCreateDatastoreOfType is idempotent over the spec-modelled
table. Starting from a table with no record for `u`, the first call (whose
id generator yields the 32-character string `id`) inserts and returns the
record `⟨id, t, u⟩`, and a later call — with any generator outcome — finds
the existing record, returns the same `datastore_id`, and leaves the table
unchanged. -/
theorem c7_getOrCreate_idempotent (db : List Datastore)
    (gen2 : Except String String) (id t u : String)
    (hfree : ∀ d ∈ db, d.uri ≠ u) (hlen : id.length = 32) :
    getOrCreateSt (.ok id) t u db = (.ok (some ⟨id, t, u⟩), db ++ [⟨id, t, u⟩]) ∧
    getOrCreateSt gen2 t u (db ++ [⟨id, t, u⟩]) =
      (.ok (some ⟨id, t, u⟩), db ++ [⟨id, t, u⟩]) ∧
    (Datastore.datastoreId ⟨id, t, u⟩).length = 32 := by
  have hmiss := dbGetByUri_of_free db u hfree
  have hnoany : db.any (fun x => x.uri == u) = false := by
    rw [List.any_eq_false]
    intro x hx
    simp [hfree x hx]
  refine ⟨?_, ?_, hlen⟩
  · unfold getOrCreateSt
    simp only [hmiss]
    unfold dbInsert
    simp [hnoany]
  · unfold getOrCreateSt
    have hfind := find_append_last db ⟨id, t, u⟩ u hfree rfl
    unfold dbGetByUri
    simp [hfind]

/-- C7 witness: the theorem at a concrete empty table and 32-character id. -/
theorem c7_getOrCreate_idempotent_witness :
    getOrCreateSt (.ok "abcdefghijklmnopqrstuvwxyzABCDEF") "file" "/tmp/a" [] =
      (.ok (some ⟨"abcdefghijklmnopqrstuvwxyzABCDEF", "file", "/tmp/a"⟩),
        [⟨"abcdefghijklmnopqrstuvwxyzABCDEF", "file", "/tmp/a"⟩]) ∧
    getOrCreateSt (.error "rng exhausted") "file" "/tmp/a"
        ([] ++ [⟨"abcdefghijklmnopqrstuvwxyzABCDEF", "file", "/tmp/a"⟩]) =
      (.ok (some ⟨"abcdefghijklmnopqrstuvwxyzABCDEF", "file", "/tmp/a"⟩),
        [] ++ [⟨"abcdefghijklmnopqrstuvwxyzABCDEF", "file", "/tmp/a"⟩]) ∧
    (Datastore.datastoreId
      ⟨"abcdefghijklmnopqrstuvwxyzABCDEF", "file", "/tmp/a"⟩).length = 32 := by
  have h := c7_getOrCreate_idempotent [] (.error "rng exhausted")
    "abcdefghijklmnopqrstuvwxyzABCDEF" "file" "/tmp/a" (by simp) (by decide)
  simpa using h

/-! ## Federation resolver (matrix package, GetServerApiUrl) -/

/-- Result of Go net.SplitHostPort: either a (host, port) pair or one of
its fixed error messages. -/
inductive SplitResult
  | ok (host port : String)
  | err (msg : String)
deriving DecidableEq, Repr

/-- The net.SplitHostPort error message the resolver recognises with
strings.HasSuffix. -/
def missingPort : String := "missing port in address"

/-- The net.SplitHostPort error for an unbracketed host containing a
colon. -/
def tooManyColons : String := "too many colons in address"

/-- Index of the last occurrence of `c` in `cs`, if any. -/
def lastIdx (cs : List Char) (c : Char) : Option Nat :=
  match cs.reverse.findIdx? (· == c) with
  | none => none
  | some i => some (cs.length - 1 - i)

/-- Go net.SplitHostPort: split "host:port" at the last colon, handling a
bracketed IPv6 host and rejecting stray colons and brackets. (The
bracket-related error texts are paraphrased without punctuation; only the
missing-port message is compared against by the caller.) -/
def splitHostPort (hostPort : String) : SplitResult :=
  let cs := hostPort.data
  match lastIdx cs ':' with
  | none => .err missingPort
  | some i =>
    if cs.head? = some '[' then
      match cs.findIdx? (· == ']') with
      | none => .err "missing close bracket in address"
      | some e =>
        if e + 1 = cs.length then .err missingPort
        else if e + 1 = i then
          let host := (cs.drop 1).take (e - 1)
          if (cs.drop 1).contains '[' then .err "unexpected open bracket in address"
          else if (cs.drop (e + 1)).contains ']' then
            .err "unexpected close bracket in address"
          else .ok ⟨host⟩ ⟨cs.drop (i + 1)⟩
        else if cs.get? (e + 1) = some ':' then .err tooManyColons
        else .err missingPort
    else
      let host := cs.take i
      if host.contains ':' then .err tooManyColons
      else if cs.contains '[' then .err "unexpected open bracket in address"
      else if cs.contains ']' then .err "unexpected close bracket in address"
      else .ok ⟨host⟩ ⟨cs.drop (i + 1)⟩

/-- The resolver's parse step: SplitHostPort, retried with the default
federation port 8448 appended when the failure was the missing-port error
(thumbnailer.go / matrix lines 203-208 and 242-247). The Bool is the
`defPort` flag. -/
def splitWithDefault (s : String) : SplitResult × Bool :=
  match splitHostPort s with
  | .err m => if m = missingPort then (splitHostPort (s ++ ":8448"), true) else (.err m, false)
  | r => (r, false)

/-- The network-facing effects of GetServerApiUrl. `isIP` is is.IP (a pure
test, kept abstract because the library is outside src/); `wellKnown h`
is `some addr` exactly when the HTTPS GET of
/.well-known/matrix/server on `h` returns status 200 with a body whose
JSON decodes to a response carrying server address `addr`; `srv h` is the
first record of the `_matrix._tcp.h` SRV lookup, when any exist. -/
structure NetOracle where
  isIP : String → Bool
  wellKnown : String → Option String
  srv : String → Option (String × Nat)

/-- The resolver cache (patrickmn/go-cache): hostname keys to base-URL
values; newest entry first. -/
abbrev UrlCache := List (String × String)

/-- Cache lookup (go-cache Get). -/
def cacheGet (c : UrlCache) (k : String) : Option String :=
  (c.find? (fun p => p.1 == k)).map (·.2)

/-- Cache insertion (go-cache Set, overwriting by shadowing). -/
def cacheSet (c : UrlCache) (k v : String) : UrlCache := (k, v) :: c

/-- Strip a single trailing dot from an SRV target (matrix lines 272-276
and 299-303). -/
def stripDot (s : String) : String :=
  if s.endsWith "." then s.dropRight 1 else s

/-- fmt.Sprintf("https://%s:%s", h, p). -/
def hostPortUrl (h p : String) : String := "https://" ++ (h ++ (":" ++ p))

/-- What a successful GetServerApiUrl returns: the base url, the SNI host,
and the cache after the call. -/
structure ResolveResult where
  url : String
  sni : String
  cache : UrlCache
deriving DecidableEq, Repr

/-- A successful resolver return that also stores the url in the cache
under the original hostname (every non-cache-hit return of
GetServerApiUrl does this). -/
def found (cache : UrlCache) (hostname url sni : String) :
    Except String ResolveResult :=
  .ok ⟨url, sni, cacheSet cache hostname url⟩

/-- Steps 4-5 of GetServerApiUrl (matrix lines 294-315): SRV lookup on the
original hostname string, else the parsed host and port as-is. The SNI is
`h` in both cases. -/
def steps45 (net : NetOracle) (cache : UrlCache) (hostname h p : String) :
    Except String ResolveResult :=
  match net.srv hostname with
  | some (target, port) =>
    found cache hostname (hostPortUrl (stripDot target) (toString port)) h
  | none => found cache hostname (hostPortUrl h p) h

/-- GetServerApiUrl without the leading cache check (matrix lines
203-315): parse, then the five-step discovery, caching every successful
result under the original hostname. -/
def resolveUncached (net : NetOracle) (cache : UrlCache) (hostname : String) :
    Except String ResolveResult :=
  match splitWithDefault hostname with
  | (.err m, _) => .error m
  | (.ok h p, defPort) =>
    if net.isIP h then
      found cache hostname (hostPortUrl h p) hostname
    else if !defPort then
      found cache hostname (hostPortUrl h p) h
    else
      match net.wellKnown h with
      | some serverAddr =>
        if serverAddr = "" then steps45 net cache hostname h p
        else
          match splitWithDefault serverAddr with
          | (.err _, _) => steps45 net cache hostname h p
          | (.ok wkHost wkPort, wkDefPort) =>
            if net.isIP wkHost then
              found cache hostname (hostPortUrl wkHost wkPort) serverAddr
            else if !wkDefPort then
              found cache hostname (hostPortUrl wkHost wkPort) wkHost
            else
              match net.srv wkHost with
              | some (target, port) =>
                found cache hostname (hostPortUrl (stripDot target) (toString port)) wkHost
              | none => found cache hostname (hostPortUrl wkHost wkPort) wkHost
      | none => steps45 net cache hostname h p

/-- GetServerApiUrl (matrix lines 191-316): consult the cache by the exact
input hostname — a hit returns the cached url with the ORIGINAL hostname
as SNI and no cache change — otherwise run the discovery steps. -/
def getServerApiUrl (net : NetOracle) (cache : UrlCache) (hostname : String) :
    Except String ResolveResult :=
  match cacheGet cache hostname with
  | some url => .ok ⟨url, hostname, cache⟩
  | none => resolveUncached net cache hostname

/-! ## Federated fetcher (matrix package, FederatedGet) -/

/-- The tls.Config fields the fetcher sets. -/
structure TlsConfig where
  serverName : String
  insecureSkipVerify : Bool
deriving DecidableEq, Repr

/-- An HTTP response, kept abstract apart from identity. -/
structure HttpResponse where
  statusCode : Nat
  body : String
deriving DecidableEq, Repr

/-- The network effects of FederatedGet. `dialErr` is the outcome of the
raw TCP dial (`none` = connected); `handshakeErr sn` the outcome of a TLS
handshake over that connection with ServerName `sn` (`none` = success);
`respond url sni` the peer response to the GET of `url` over an
established connection whose handshake used ServerName `sni` (the request
carries Host = realHost and User-Agent = matrix-media-repo). -/
structure FedOracle where
  dialErr : Option String
  handshakeErr : String → Option String
  respond : String → String → HttpResponse

/-- Outcome of the custom DialTLS closure: an established TLS connection
(with the config its successful handshake used), or a failure. -/
inductive DialOutcome
  | conn (cfg : TlsConfig)
  | fail (e : String)
deriving DecidableEq, Repr

/-- The DialTLS closure of FederatedGet (matrix lines 323-350), verbatim:
dial; handshake with ServerName = realHost and verification disabled; on
failure, handshake again with ServerName = "" — and then return a nil
connection in BOTH retry outcomes: the retry error if the second
handshake failed, else the ORIGINAL error even though the retry
succeeded. The only path that yields a connection is a first-handshake
success. -/
def dialTLS (ora : FedOracle) (realHost : String) : DialOutcome :=
  match ora.dialErr with
  | some e => .fail e
  | none =>
    match ora.handshakeErr realHost with
    | none => .conn ⟨realHost, true⟩
    | some e =>
      match ora.handshakeErr "" with
      | some e2 => .fail e2
      | none => .fail e

/-- FederatedGet (matrix lines 318-369): build the GET with overridden
Host, round-trip through the transport whose DialTLS is above. A dial
failure is surfaced by RoundTrip. -/
def federatedGet (ora : FedOracle) (url realHost : String) :
    Except String HttpResponse :=
  match dialTLS ora realHost with
  | .fail e => .error e
  | .conn cfg => .ok (ora.respond url cfg.serverName)

/-- Oracle on which the first handshake (with SNI) fails and the empty-SNI
retry succeeds. -/
def c1RetrySucceeds : FedOracle :=
  ⟨none, fun sn => if sn = "" then none else some "tls: handshake failure",
    fun _ _ => ⟨200, "media bytes"⟩⟩

/-- Oracle on which both handshakes fail, with distinct errors. -/
def c1BothFail : FedOracle :=
  ⟨none, fun sn => if sn = "" then some "tls: no shared cipher"
    else some "tls: handshake failure", fun _ _ => ⟨200, "media bytes"⟩⟩

/-- C1: evaluation of FederatedGet at the failing inputs. When the initial
handshake fails and the empty-SNI retry SUCCEEDS, the call still returns
the original handshake error and no response — the GET never proceeds
over the retry connection. When the retry also fails, the error returned
is the second failure, not the original one. -/
theorem c1_federatedGet_retry_dead_code :
    federatedGet c1RetrySucceeds "https://remote.example:8448/_matrix/media/v1/download/x"
      "remote.example" = .error "tls: handshake failure" ∧
    federatedGet c1BothFail "https://remote.example:8448/_matrix/media/v1/download/x"
      "remote.example" = .error "tls: no shared cipher" := by
  constructor <;> rfl

/-! ### Resolver cache lemmas -/

/-- An entry just written is what the cache returns for its key. -/
theorem cacheGet_cacheSet (c : UrlCache) (k v : String) :
    cacheGet (cacheSet c k v) k = some v := by
  simp [cacheGet, cacheSet, List.find?]

/-- A cache hit names an entry of the cache. -/
theorem cacheGet_mem {c : UrlCache} {k v : String} (h : cacheGet c k = some v) :
    ∃ kv ∈ c, kv.2 = v := by
  unfold cacheGet at h
  cases hf : c.find? (fun p => p.1 == k) with
  | none => rw [hf] at h; simp at h
  | some kv =>
    rw [hf] at h
    exact ⟨kv, List.mem_of_find?_eq_some hf, by simpa using h⟩

/-- The fields of a successful `found` return. -/
theorem found_fields {cache : UrlCache} {hostname url sni : String} {r : ResolveResult}
    (h : found cache hostname url sni = .ok r) :
    r.url = url ∧ r.sni = sni ∧ r.cache = cacheSet cache hostname url := by
  unfold found at h
  injection h with h1
  subst h1
  exact ⟨rfl, rfl, rfl⟩

/-- Every `found` return leaves its own url in the cache under the
original hostname. -/
theorem found_cached {cache : UrlCache} {hostname url sni : String} {r : ResolveResult}
    (h : found cache hostname url sni = .ok r) :
    cacheGet r.cache hostname = some r.url := by
  obtain ⟨h1, -, h3⟩ := found_fields h
  rw [h1, h3]
  exact cacheGet_cacheSet cache hostname url

/-- Steps 4-5 always succeed with an https url, SNI `h`, and the url
cached under the original hostname. -/
theorem steps45_fields {net : NetOracle} {cache : UrlCache} {hostname h p : String}
    {r : ResolveResult} (hr : steps45 net cache hostname h p = .ok r) :
    (∃ t, r.url = "https://" ++ t) ∧ r.sni = h ∧
      cacheGet r.cache hostname = some r.url := by
  unfold steps45 at hr
  split at hr <;>
    exact ⟨⟨_, (found_fields hr).1⟩, (found_fields hr).2.1, found_cached hr⟩

/-- Any successful uncached resolution stores its url in the cache under
the original input hostname. -/
theorem resolveUncached_cached {net : NetOracle} {cache : UrlCache} {hostname : String}
    {r : ResolveResult} (h : resolveUncached net cache hostname = .ok r) :
    cacheGet r.cache hostname = some r.url := by
  unfold resolveUncached at h
  repeat' split at h
  all_goals first
    | exact absurd h (by simp)
    | exact found_cached h
    | exact (steps45_fields h).2.2

/-- C8: when the cache holds an entry for the input hostname, the resolver
returns the cached base url together with the exact original hostname as
the SNI host, whatever value the filling call had returned — only the
base url is stored in the cache. -/
theorem c8_cache_hit_sni_is_input {net : NetOracle} {cache : UrlCache}
    {hostname url : String} (h : cacheGet cache hostname = some url) :
    getServerApiUrl net cache hostname = .ok ⟨url, hostname, cache⟩ := by
  unfold getServerApiUrl
  rw [h]

/-- Network oracle for the concrete scenarios: nothing is an IP literal,
no .well-known is served, no SRV records exist. -/
def cNet : NetOracle := ⟨fun _ => false, fun _ => none, fun _ => none⟩

/-- C8 witness: a cache entry filled by a .well-known delegation (whose
filling call returned the delegated SNI) still resolves with the original
hostname as SNI. -/
theorem c8_cache_hit_sni_is_input_witness :
    getServerApiUrl cNet [("matrix.org", "https://delegated.example:8448")]
      "matrix.org" =
      .ok ⟨"https://delegated.example:8448", "matrix.org",
        [("matrix.org", "https://delegated.example:8448")]⟩ :=
  @c8_cache_hit_sni_is_input cNet
    [("matrix.org", "https://delegated.example:8448")] "matrix.org"
    "https://delegated.example:8448" (by rfl)

/-- The cache state after resolving "example.org:1234" from empty. -/
def exOrgCache : UrlCache := [("example.org:1234", "https://example.org:1234")]

/-- C2 counterexample: resolving "example.org:1234" twice from an empty
cache. The first (cache-filling) call returns SNI "example.org" (the host
without the port, per step 2), but the second call hits the cache and
returns SNI "example.org:1234" — the pairs differ, so the two calls are
not identical. -/
theorem c2_successive_resolve_counterexample :
    getServerApiUrl cNet [] "example.org:1234" =
      .ok ⟨"https://example.org:1234", "example.org", exOrgCache⟩ ∧
    getServerApiUrl cNet exOrgCache "example.org:1234" =
      .ok ⟨"https://example.org:1234", "example.org:1234", exOrgCache⟩ ∧
    ("example.org" : String) ≠ "example.org:1234" := by
  refine ⟨by rfl, by rfl, by decide⟩

/-- C2 (amended): two successive resolver calls for the same hostname
within the TTL return the same base url, and the second call hits the
cache; its SNI host is the input hostname itself, which may differ from
the SNI host the first call returned. -/
theorem c2_second_resolve_same_url {net : NetOracle} {cache : UrlCache}
    {hostname : String} {r : ResolveResult}
    (h : getServerApiUrl net cache hostname = .ok r) :
    getServerApiUrl net r.cache hostname = .ok ⟨r.url, hostname, r.cache⟩ := by
  have hc : cacheGet r.cache hostname = some r.url := by
    unfold getServerApiUrl at h
    cases hcg : cacheGet cache hostname with
    | some url =>
      rw [hcg] at h
      injection h with h1
      subst h1
      simpa using hcg
    | none =>
      rw [hcg] at h
      exact resolveUncached_cached h
  unfold getServerApiUrl
  rw [hc]

/-- C2 witness: the amended theorem applied after the concrete first call
on "example.org:1234". -/
theorem c2_second_resolve_same_url_witness :
    getServerApiUrl cNet exOrgCache "example.org:1234" =
      .ok ⟨"https://example.org:1234", "example.org:1234", exOrgCache⟩ :=
  @c2_second_resolve_same_url cNet [] "example.org:1234"
    ⟨"https://example.org:1234", "example.org", exOrgCache⟩ (by rfl)

/-- Every successful uncached resolution yields an https url; its SNI is
non-empty provided the input hostname, its parsed host part, and the host
part of any .well-known delegated address are non-empty. -/
theorem resolveUncached_wellformed {net : NetOracle} {cache : UrlCache}
    {hostname : String} {r : ResolveResult}
    (hhost : hostname ≠ "")
    (hsplit : ∀ hh pp dp, splitWithDefault hostname = (.ok hh pp, dp) → hh ≠ "")
    (hwk : ∀ host addr, net.wellKnown host = some addr →
        ∀ wh wp dp, splitWithDefault addr = (.ok wh wp, dp) → wh ≠ "")
    (h : resolveUncached net cache hostname = .ok r) :
    (∃ t, r.url = "https://" ++ t) ∧ r.sni ≠ "" := by
  unfold resolveUncached at h
  split at h
  · exact absurd h (by simp)
  next hh pp dp heq =>
    have hhne : hh ≠ "" := hsplit hh pp dp heq
    split at h
    · obtain ⟨h1, h2, -⟩ := found_fields h
      exact ⟨⟨_, h1⟩, by rw [h2]; exact hhost⟩
    · split at h
      · obtain ⟨h1, h2, -⟩ := found_fields h
        exact ⟨⟨_, h1⟩, by rw [h2]; exact hhne⟩
      · split at h
        next serverAddr hwkEq =>
          split at h
          · obtain ⟨h1, h2, -⟩ := steps45_fields h
            exact ⟨h1, by rw [h2]; exact hhne⟩
          next hne =>
            split at h
            · obtain ⟨h1, h2, -⟩ := steps45_fields h
              exact ⟨h1, by rw [h2]; exact hhne⟩
            next wkHost wkPort wkDp heq2 =>
              have hwkne : wkHost ≠ "" := hwk hh serverAddr hwkEq wkHost wkPort wkDp heq2
              split at h
              · obtain ⟨h1, h2, -⟩ := found_fields h
                exact ⟨⟨_, h1⟩, by rw [h2]; exact hne⟩
              · split at h
                · obtain ⟨h1, h2, -⟩ := found_fields h
                  exact ⟨⟨_, h1⟩, by rw [h2]; exact hwkne⟩
                · split at h
                  · obtain ⟨h1, h2, -⟩ := found_fields h
                    exact ⟨⟨_, h1⟩, by rw [h2]; exact hwkne⟩
                  · obtain ⟨h1, h2, -⟩ := found_fields h
                    exact ⟨⟨_, h1⟩, by rw [h2]; exact hwkne⟩
        next hwkEq =>
          obtain ⟨h1, h2, -⟩ := steps45_fields h
          exact ⟨h1, by rw [h2]; exact hhne⟩

/-- C5 counterexample: the input ":8448" (a bare port) resolves without
error, yet the returned SNI host is the empty string — the base url does
begin with https, but the non-empty-SNI half of the claim fails. -/
theorem c5_empty_sni_counterexample :
    getServerApiUrl cNet [] ":8448" =
      .ok ⟨"https://:8448", "", [(":8448", "https://:8448")]⟩ := by
  rfl

/-- C5 (amended): whenever the resolver returns without error, the base
url begins with "https://" (given that every cached value does), and the
SNI host is non-empty provided the input hostname, its parsed host part,
and the host part of any .well-known delegated address are non-empty. -/
theorem c5_resolve_url_https_sni_nonempty {net : NetOracle} {cache : UrlCache}
    {hostname : String} {r : ResolveResult}
    (hcache : ∀ kv ∈ cache, ∃ t, kv.2 = "https://" ++ t)
    (hhost : hostname ≠ "")
    (hsplit : ∀ hh pp dp, splitWithDefault hostname = (.ok hh pp, dp) → hh ≠ "")
    (hwk : ∀ host addr, net.wellKnown host = some addr →
        ∀ wh wp dp, splitWithDefault addr = (.ok wh wp, dp) → wh ≠ "")
    (h : getServerApiUrl net cache hostname = .ok r) :
    (∃ t, r.url = "https://" ++ t) ∧ r.sni ≠ "" := by
  unfold getServerApiUrl at h
  cases hcg : cacheGet cache hostname with
  | some url =>
    rw [hcg] at h
    injection h with h1
    subst h1
    obtain ⟨kv, hmem, hv⟩ := cacheGet_mem hcg
    exact ⟨(hcache kv hmem).imp (fun t ht => by rw [← hv]; exact ht), hhost⟩
  | none =>
    rw [hcg] at h
    exact resolveUncached_wellformed hhost hsplit hwk h

/-- C5 witness: the amended theorem at the concrete input
"example.org:8449" on an empty cache. -/
theorem c5_resolve_url_https_sni_nonempty_witness :
    (∃ t, (⟨"https://example.org:8449", "example.org",
        [("example.org:8449", "https://example.org:8449")]⟩ : ResolveResult).url =
      "https://" ++ t) ∧
    (⟨"https://example.org:8449", "example.org",
        [("example.org:8449", "https://example.org:8449")]⟩ : ResolveResult).sni ≠ "" :=
  @c5_resolve_url_https_sni_nonempty cNet [] "example.org:8449"
    ⟨"https://example.org:8449", "example.org",
      [("example.org:8449", "https://example.org:8449")]⟩
    (by intro kv hkv; simp at hkv)
    (by decide)
    (by
      intro hh pp dp heq
      rw [show splitWithDefault "example.org:8449" =
        (SplitResult.ok "example.org" "8449", false) from rfl] at heq
      injection heq with h1 h2
      injection h1 with h3 h4
      intro hcon
      rw [← h3] at hcon
      exact absurd hcon (by decide))
    (by intro host addr hx; simp [cNet] at hx)
    (by rfl)

/-! ## Thumbnailer (services/thumbnail_service/thumbnailer.go) -/

/-- A media record, with the fields GenerateThumbnail reads
(types.Media). -/
structure Media where
  contentType : String
  location : String
  sizeBytes : Int
deriving DecidableEq, Repr

/-- An image, abstracted to its bounds: `width = Bounds().Max.X`,
`height = Bounds().Max.Y`. -/
structure Img where
  width : Int
  height : Int
deriving DecidableEq, Repr

/-- The record GenerateThumbnail builds (generatedThumbnail). -/
structure GeneratedThumbnail where
  contentType : String
  diskLocation : String
  sizeBytes : Int
  animated : Bool
deriving DecidableEq, Repr

/-- The effects and external libraries GenerateThumbnail uses, as pure
oracles: `openImage` is imaging.Open; `aspectEq` the float32 aspect-ratio
equality test of lines 50-52 (kept abstract: floating point); `fit` and
`fill` are imaging.Fit and imaging.Fill at the Lanczos filter; `gifDecodeAll`
is os.Open plus gif.DecodeAll, giving the frame list; `gifEncodeAll` and
`pngEncode` produce the encoded buffer; `persistFile` is
storage.PersistFile, returning a disk location; `fileSize` is
util.FileSize. -/
structure ThumbEnv where
  animatedTypes : List String
  openImage : String → Except String Img
  aspectEq : Img → Int → Int → Bool
  fit : Img → Int → Int → Img
  fill : Img → Int → Int → Img
  gifDecodeAll : String → Except String (List Img)
  gifEncodeAll : List Img → Except String String
  pngEncode : Img → Except String String
  persistFile : String → Except String String
  fileSize : String → Except String Int

/-- thumbnailer.go lines 151-161, thumbnailFrame: dispatch on the method
string, failing on anything but "scale" and "crop". -/
def thumbnailFrame (env : ThumbEnv) (src : Img) (method : String)
    (width height : Int) : Except String Img :=
  if method = "scale" then .ok (env.fit src width height)
  else if method = "crop" then .ok (env.fill src width height)
  else .error ("unrecognized method: " ++ method)

/-- The frame loop of the animated path (lines 99-109): each frame is
transformed by thumbnailFrame (the re-palette and over-composite keep the
transformed bounds), failing as soon as one frame fails. -/
def thumbnailFrames (env : ThumbEnv) (method : String) (width height : Int) :
    List Img → Except String (List Img)
  | [] => .ok []
  | f :: rest =>
    match thumbnailFrame env f method width height with
    | .error e => .error e
    | .ok t =>
      match thumbnailFrames env method width height rest with
      | .error e => .error e
      | .ok ts => .ok (t :: ts)

/-- Lines 131-148: persist the encoded buffer, stat it, and assemble the
returned record. The second component of the result is the trace of disk
locations written (exactly one here; the pass-through path writes none). -/
def finishThumb (env : ThumbEnv) (contentType : String) (imgData : String)
    (animated : Bool) : Except String (GeneratedThumbnail × List String) :=
  match env.persistFile imgData with
  | .error e => .error e
  | .ok location =>
    match env.fileSize location with
    | .error e => .error e
    | .ok fileSize => .ok (⟨contentType, location, fileSize, animated⟩, [location])

/-- Lines 77-148, the generation pass (reached when the image is large
enough or forceGeneration is set): the animated branch decodes all GIF
frames, transforms each, and re-encodes as GIF; the still branch
transforms the single frame and encodes as PNG; both persist the result. -/
def generatePipeline (env : ThumbEnv) (media : Media) (method : String)
    (animated : Bool) (width height : Int) (src : Img) :
    Except String (GeneratedThumbnail × List String) :=
  if animated && env.animatedTypes.contains media.contentType then
    match env.gifDecodeAll media.location with
    | .error e => .error e
    | .ok frames =>
      match thumbnailFrames env method width height frames with
      | .error e => .error e
      | .ok tframes =>
        match env.gifEncodeAll tframes with
        | .error e => .error e
        | .ok imgData => finishThumb env "image/gif" imgData animated
  else
    match thumbnailFrame env src method width height with
    | .error e => .error e
    | .ok timg =>
      match env.pngEncode timg with
      | .error e => .error e
      | .ok imgData => finishThumb env "image/png" imgData animated

/-- thumbnailer.go lines 36-149, GenerateThumbnail: normalize the animated
flag (lines 37-40), open and measure the source (42-48), apply the
aspect-ratio override (50-56); if the source already fits inside the
requested box, either pass the media through unchanged (force unset,
lines 67-74) or clamp the target to the source size (force set, lines
63-66); otherwise generate. -/
def generateThumbnail (env : ThumbEnv) (media : Media) (width height : Int)
    (method : String) (animated forceGeneration : Bool) :
    Except String (GeneratedThumbnail × List String) :=
  match env.openImage media.location with
  | .error e => .error e
  | .ok src =>
    if src.width ≤ width ∧ src.height ≤ height then
      if forceGeneration then
        generatePipeline env media
          (if env.aspectEq src width height then "scale" else method)
          (animated && env.animatedTypes.contains media.contentType)
          src.width src.height src
      else
        .ok (⟨media.contentType, media.location, media.sizeBytes,
          animated && env.animatedTypes.contains media.contentType⟩, [])
    else
      generatePipeline env media
        (if env.aspectEq src width height then "scale" else method)
        (animated && env.animatedTypes.contains media.contentType)
        width height src

/-- The fields of a successfully persisted thumbnail. -/
theorem finishThumb_fields {env : ThumbEnv} {ct imgData : String} {an : Bool}
    {t : GeneratedThumbnail} {tr : List String}
    (h : finishThumb env ct imgData an = .ok (t, tr)) :
    t.contentType = ct ∧ t.animated = an ∧ tr = [t.diskLocation] := by
  unfold finishThumb at h
  split at h
  · exact absurd h (by simp)
  · split at h
    · exact absurd h (by simp)
    · injection h with h1
      injection h1 with h2 h3
      subst h2
      subst h3
      exact ⟨rfl, rfl, rfl⟩

/-- Any record produced by the generation pass carries "image/gif" exactly
when its animated flag is set, else "image/png", and writes exactly one
file — provided the animated argument is already normalized (set only for
an animated source type). -/
theorem generatePipeline_fields {env : ThumbEnv} {media : Media} {method : String}
    {an : Bool} {w hgt : Int} {src : Img} {t : GeneratedThumbnail} {tr : List String}
    (han : an = true → env.animatedTypes.contains media.contentType = true)
    (hres : generatePipeline env media method an w hgt src = .ok (t, tr)) :
    t.contentType = (if t.animated then "image/gif" else "image/png") ∧
      tr = [t.diskLocation] := by
  unfold generatePipeline at hres
  split at hres
  next hcond =>
    have ha : an = true := ((Bool.and_eq_true ..).mp hcond).1
    repeat' split at hres
    all_goals first
      | exact absurd hres (by simp)
      | (obtain ⟨h1, h2, h3⟩ := finishThumb_fields hres
         refine ⟨?_, h3⟩
         simp [h1, h2, ha])
  next hcond =>
    have ha : an = false := by
      by_contra hcon
      have ha2 : an = true := by
        cases an
        · exact absurd rfl hcon
        · rfl
      rw [ha2, han ha2] at hcond
      exact hcond rfl
    repeat' split at hres
    all_goals first
      | exact absurd hres (by simp)
      | (obtain ⟨h1, h2, h3⟩ := finishThumb_fields hres
         refine ⟨?_, h3⟩
         simp [h1, h2, ha])

/-- Concrete environment for the thumbnail scenarios: every image opens as
10 by 10, the aspect-ratio float test is never equal, transforms return the
box size, codecs succeed, persistence lands on a fixed path. -/
def cEnv : ThumbEnv :=
  ⟨["image/gif"], fun _ => .ok ⟨10, 10⟩, fun _ _ _ => false,
    fun _ w hgt => ⟨w, hgt⟩, fun _ w hgt => ⟨w, hgt⟩,
    fun _ => .ok [⟨10, 10⟩], fun _ => .ok "gifbytes", fun _ => .ok "pngbytes",
    fun b => .ok ("/media/thumb-" ++ b), fun _ => .ok 42⟩

/-- C4 counterexample: a pass-through call on a JPEG media (source 10x10,
box 100x100, force unset) succeeds with animated = false yet content_type
"image/jpeg", not "image/png" — the invariant fails on the pass-through
path. -/
theorem c4_passthrough_contentType_counterexample :
    generateThumbnail cEnv ⟨"image/jpeg", "/media/orig", 123⟩ 100 100 "scale"
        false false =
      .ok (⟨"image/jpeg", "/media/orig", 123, false⟩, []) ∧
    ("image/jpeg" : String) ≠ "image/png" :=
  ⟨rfl, by decide⟩

/-- C4 (amended): every thumbnail produced by the generation path (one
that writes a derivative, trace nonempty) has content_type "image/gif"
iff animated and "image/png" otherwise; a pass-through thumbnail (empty
trace) instead copies the media content_type unchanged. -/
theorem c4_contentType_invariant {env : ThumbEnv} {media : Media} {w hgt : Int}
    {method : String} {a f : Bool} {t : GeneratedThumbnail} {tr : List String}
    (hres : generateThumbnail env media w hgt method a f = .ok (t, tr)) :
    (tr ≠ [] → t.contentType = (if t.animated then "image/gif" else "image/png")) ∧
    (tr = [] → t.contentType = media.contentType) := by
  unfold generateThumbnail at hres
  have han : (a && env.animatedTypes.contains media.contentType) = true →
      env.animatedTypes.contains media.contentType = true :=
    fun hx => ((Bool.and_eq_true ..).mp hx).2
  split at hres
  · exact absurd hres (by simp)
  next src heq =>
    by_cases hsz : src.width ≤ w ∧ src.height ≤ hgt
    · rw [if_pos hsz] at hres
      by_cases hf : f = true
      · rw [if_pos hf] at hres
        obtain ⟨h1, h2⟩ := generatePipeline_fields han hres
        refine ⟨fun _ => h1, fun he => ?_⟩
        rw [h2] at he
        exact absurd he (by simp)
      · rw [if_neg hf] at hres
        injection hres with h1
        injection h1 with h2 h3
        subst h2
        subst h3
        exact ⟨fun hne => absurd rfl hne, fun _ => rfl⟩
    · rw [if_neg hsz] at hres
      obtain ⟨h1, h2⟩ := generatePipeline_fields han hres
      refine ⟨fun _ => h1, fun he => ?_⟩
      rw [h2] at he
      exact absurd he (by simp)

/-- C4 witness: the amended theorem at a concrete generating call (PNG
still thumbnail, 10x10 source into a 5x5 box). -/
theorem c4_contentType_invariant_witness :
    ((["/media/thumb-pngbytes"] : List String) ≠ [] →
      (⟨"image/png", "/media/thumb-pngbytes", 42, false⟩ :
        GeneratedThumbnail).contentType =
      (if (⟨"image/png", "/media/thumb-pngbytes", 42, false⟩ :
        GeneratedThumbnail).animated then "image/gif" else "image/png")) ∧
    ((["/media/thumb-pngbytes"] : List String) = [] →
      (⟨"image/png", "/media/thumb-pngbytes", 42, false⟩ :
        GeneratedThumbnail).contentType = "image/png") :=
  @c4_contentType_invariant cEnv ⟨"image/png", "/media/orig", 5⟩ 5 5 "scale"
    false false ⟨"image/png", "/media/thumb-pngbytes", 42, false⟩
    ["/media/thumb-pngbytes"] (by rfl)

/-- C6: a decodable source that already fits inside the requested box,
with force unset, is passed through: the returned thumbnail copies the
media content_type, location and size_bytes unchanged (with the
normalized animated flag), and no derivative file is persisted (empty
write trace). -/
theorem c6_passthrough_copies_media {env : ThumbEnv} {media : Media} {w hgt : Int}
    {method : String} {a : Bool} {img : Img}
    (hopen : env.openImage media.location = .ok img)
    (hw : img.width ≤ w) (hh : img.height ≤ hgt) :
    generateThumbnail env media w hgt method a false =
      .ok (⟨media.contentType, media.location, media.sizeBytes,
        a && env.animatedTypes.contains media.contentType⟩, []) := by
  simp [generateThumbnail, hopen, hw, hh]

/-- C6 witness: the theorem at the concrete environment (10x10 source,
100x100 box, crop method, animated flag set on a non-animated type). -/
theorem c6_passthrough_copies_media_witness :
    generateThumbnail cEnv ⟨"image/jpeg", "/media/orig", 123⟩ 100 100 "crop"
        true false =
      .ok (⟨"image/jpeg", "/media/orig", 123, false⟩, []) :=
  @c6_passthrough_copies_media cEnv ⟨"image/jpeg", "/media/orig", 123⟩ 100 100
    "crop" true ⟨10, 10⟩ rfl (by decide) (by decide)

/-- C10: when the source cannot be opened or decoded, GenerateThumbnail
returns that error for every input — in particular for calls that would
otherwise qualify for the upscaling pass-through, which is reachable only
after a successful decode. -/
theorem c10_open_error_surfaced {env : ThumbEnv} {media : Media} {w hgt : Int}
    {method : String} {a f : Bool} {e : String}
    (hopen : env.openImage media.location = .error e) :
    generateThumbnail env media w hgt method a f = .error e := by
  simp [generateThumbnail, hopen]

/-- Environment whose decoder always fails. -/
def c10Env : ThumbEnv :=
  ⟨["image/gif"], fun _ => .error "image: unknown format", fun _ _ _ => false,
    fun _ w hgt => ⟨w, hgt⟩, fun _ w hgt => ⟨w, hgt⟩,
    fun _ => .ok [⟨10, 10⟩], fun _ => .ok "gifbytes", fun _ => .ok "pngbytes",
    fun b => .ok ("/media/thumb-" ++ b), fun _ => .ok 42⟩

/-- C10 witness: the theorem at a concrete undecodable media. -/
theorem c10_open_error_surfaced_witness :
    generateThumbnail c10Env ⟨"image/png", "/media/orig", 9⟩ 100 100 "scale"
        false false = .error "image: unknown format" :=
  c10_open_error_surfaced rfl
